import Mathlib

/-!
Shallow embedding of the change-detection core of the noti-bot repository
(src/bot/utils.py, src/bot/monitoring.py, src/bot/notifications.py) and
proofs about it.

Python values flowing through the monitored-source pipeline are dynamically
typed: a field may hold None, an int, a str, or a list.  The inductive type
`Value` models this fragment, together with Python truthiness and the
builtin conversions the code uses (int(), indexing, .copy(), len()).
-/

namespace NotiBot

/-- Model of the dynamically typed Python values used by the bot:
`None`, `int`, `str` and `list`. -/
inductive Value where
  | null
  | int (n : Int)
  | str (s : String)
  | list (l : List Value)

mutual

/-- Structural (= Python `==` on this fragment) equality test for `Value`. -/
def Value.decEq : (a b : Value) → Decidable (a = b)
  | .null, .null => isTrue rfl
  | .null, .int _ => isFalse (fun h => Value.noConfusion h)
  | .null, .str _ => isFalse (fun h => Value.noConfusion h)
  | .null, .list _ => isFalse (fun h => Value.noConfusion h)
  | .int _, .null => isFalse (fun h => Value.noConfusion h)
  | .int n, .int m =>
    if h : n = m then isTrue (by rw [h])
    else isFalse (fun he => h (Value.int.inj he))
  | .int _, .str _ => isFalse (fun h => Value.noConfusion h)
  | .int _, .list _ => isFalse (fun h => Value.noConfusion h)
  | .str _, .null => isFalse (fun h => Value.noConfusion h)
  | .str _, .int _ => isFalse (fun h => Value.noConfusion h)
  | .str s, .str t =>
    if h : s = t then isTrue (by rw [h])
    else isFalse (fun he => h (Value.str.inj he))
  | .str _, .list _ => isFalse (fun h => Value.noConfusion h)
  | .list _, .null => isFalse (fun h => Value.noConfusion h)
  | .list _, .int _ => isFalse (fun h => Value.noConfusion h)
  | .list _, .str _ => isFalse (fun h => Value.noConfusion h)
  | .list l, .list m =>
    match Value.decEqList l m with
    | isTrue h => isTrue (by rw [h])
    | isFalse h => isFalse (fun he => h (Value.list.inj he))

/-- Elementwise equality test for lists of `Value`. -/
def Value.decEqList : (l m : List Value) → Decidable (l = m)
  | [], [] => isTrue rfl
  | [], _ :: _ => isFalse (fun h => List.noConfusion h)
  | _ :: _, [] => isFalse (fun h => List.noConfusion h)
  | x :: xs, y :: ys =>
    match Value.decEq x y, Value.decEqList xs ys with
    | isTrue h1, isTrue h2 => isTrue (by rw [h1, h2])
    | isFalse h1, _ => isFalse (fun he => h1 (by injection he))
    | isTrue _, isFalse h2 => isFalse (fun he => h2 (by injection he))

end

instance : DecidableEq Value := Value.decEq

/-- Python truthiness (`bool(v)`) for the modelled fragment: `None` is falsy,
an int is truthy iff nonzero, a str iff non-empty, a list iff non-empty. -/
def Value.truthy : Value → Bool
  | .null => false
  | .int n => n != 0
  | .str s => s != ""
  | .list l => !l.isEmpty

/-- Decimal value of a non-empty all-digit character run, `none` otherwise. -/
def digitsToNat? (cs : List Char) : Option Nat :=
  if cs ≠ [] ∧ cs.all Char.isDigit then
    some (cs.foldl (fun n c => n * 10 + (c.toNat - '0'.toNat)) 0)
  else Option.none

/-- Model of Python `int(s)` for strings: optional surrounding whitespace,
an optional single leading sign, then a non-empty run of digits.
(Pythonic underscore separators are not modelled; no claim depends on them.) -/
def pyIntOfString (s : String) : Option Int :=
  match (s.data.dropWhile Char.isWhitespace).reverse.dropWhile Char.isWhitespace |>.reverse with
  | '-' :: rest => (digitsToNat? rest).map (fun n => -(n : Int))
  | '+' :: rest => (digitsToNat? rest).map (fun n => (n : Int))
  | cs => (digitsToNat? cs).map (fun n => (n : Int))

/-- Model of Python `int(v)`: identity on ints, string parsing on strs,
`none` when the call raises `ValueError`/`TypeError` (lists, `None`). -/
def pyInt : Value → Option Int
  | .int n => some n
  | .str s => pyIntOfString s
  | _ => Option.none

/-- Model of `v[0]`: first element of a list, one-character string for a
non-empty string; `Except.error` when Python raises (`IndexError`/`TypeError`). -/
def pyGetItem0 : Value → Except Unit Value
  | .list (x :: _) => .ok x
  | .list [] => .error ()
  | .str s => if s = "" then .error () else .ok (.str (String.mk (s.data.take 1)))
  | _ => .error ()

/-- Model of `v.copy()`: defined for lists, raises (`AttributeError`) otherwise. -/
def pyCopy : Value → Except Unit (List Value)
  | .list l => .ok l
  | _ => .error ()

/-- Model of `len(v)`: defined for lists and strings, raises otherwise. -/
def pyLen : Value → Except Unit Nat
  | .list l => .ok l.length
  | .str s => .ok s.length
  | _ => .error ()

/-- Model of Python `s.startswith(pre)` (data-level so that it evaluates
definitionally). -/
def pyStartsWith (s pre : String) : Bool :=
  pre.data.isPrefixOf s.data

/-- Model of Python `s.lower()` for the ASCII strings the bot handles. -/
def pyLower (s : String) : String :=
  String.mk (s.data.map Char.toLower)

/-- The `+`-stripping step shared by monitoring.py (lines 50-52, 83-85,
103-105) and notifications.py (lines 436-438): if the value is a string
starting with a plus sign, drop that first character; otherwise keep it. -/
def stripPlus : Value → Value
  | .str s =>
    match s.data with
    | '+' :: rest => .str (String.mk rest)
    | _ => .str s
  | v => v

/-- Head-value normalisation of `WebsiteMonitor.process_update` (single
branch, monitoring.py lines 49-58): strip one leading `+`, then convert to
int when `int()` succeeds, else keep the stripped value. -/
def normalizeNumber (v : Value) : Value :=
  match pyInt (stripPlus v) with
  | some n => .int n
  | Option.none => stripPlus v

/-!
## NewEntrySelector — `get_selected_numbers_for_buttons` (utils.py 443-461)
-/

/-- Model of Python `list.index(x)`: index of the first element equal to
`x`, or `none` where Python raises `ValueError`. -/
def pyIndex (l : List Value) (x : Value) : Option Nat :=
  match l with
  | [] => Option.none
  | y :: ys => if y = x then some 0 else (pyIndex ys x).map (· + 1)

/-- Shallow embedding of `get_selected_numbers_for_buttons(numbers,
previous_last_number)` from utils.py lines 443-461: empty list for a falsy
input list, the whole list for a falsy anchor, otherwise the prefix before
the first occurrence of the anchor (`numbers[:numbers.index(...)]`), or the
whole list when `list.index` raises `ValueError` (anchor absent). -/
def getSelectedNumbersForButtons (numbers : List Value) (previousLastNumber : Value) : List Value :=
  if numbers.isEmpty then []
  else if !previousLastNumber.truthy then numbers
  else
    match pyIndex numbers previousLastNumber with
    | some i => numbers.take i
    | Option.none => numbers

/-!
## Country/FlagResolver — `COUNTRY_CODES` and `CountryDetector` (utils.py 18-96)
-/

/-- ISO value of one `COUNTRY_CODES` entry: either a single ISO code or a
list of codes for calling codes shared by several territories. -/
inductive IsoEntry where
  | one (iso : String)
  | many (isos : List String)

/-- ISO code the detector resolves an entry to (`iso_code[0]` for a list,
utils.py lines 91-93; the lists in the table are non-empty). -/
def isoOf : IsoEntry → String
  | .one iso => iso
  | .many isos => isos.headD ""

/-- The static `COUNTRY_CODES` table of utils.py lines 18-74, in its source
(insertion) order. -/
def COUNTRY_CODES : List (String × IsoEntry) := [
  ("1", .many ["us", "ca"]),
  ("7", .one "ru"),
  ("30", .one "gr"),
  ("31", .one "nl"),
  ("32", .one "be"),
  ("33", .one "fr"),
  ("34", .one "es"),
  ("39", .one "it"),
  ("40", .one "ro"),
  ("41", .one "ch"),
  ("43", .one "at"),
  ("44", .one "gb"),
  ("45", .one "dk"),
  ("46", .one "se"),
  ("48", .one "pl"),
  ("49", .one "de"),
  ("52", .one "mx"),
  ("55", .one "br"),
  ("60", .one "my"),
  ("61", .one "au"),
  ("62", .one "id"),
  ("63", .one "ph"),
  ("65", .one "sg"),
  ("66", .one "th"),
  ("77", .one "kz"),
  ("81", .one "jp"),
  ("82", .one "kr"),
  ("84", .one "vn"),
  ("86", .one "cn"),
  ("91", .one "in"),
  ("212", .one "ma"),
  ("225", .one "ci"),
  ("230", .one "mu"),
  ("234", .one "ng"),
  ("351", .one "pt"),
  ("353", .one "ie"),
  ("354", .one "is"),
  ("358", .one "fi"),
  ("359", .one "bg"),
  ("370", .one "lt"),
  ("371", .one "lv"),
  ("372", .one "ee"),
  ("380", .one "ua"),
  ("381", .one "rs"),
  ("385", .one "hr"),
  ("386", .one "si"),
  ("387", .one "ba"),
  ("420", .one "cz"),
  ("421", .one "sk"),
  ("670", .one "tl"),
  ("852", .one "hk"),
  ("886", .one "tw"),
  ("972", .one "il"),
  ("995", .one "ge"),
  ("1787", .one "pr")]

/-- One step of a stable insertion sort by descending key length, modelling
`sorted(COUNTRY_CODES.keys(), key=len, reverse=True)` (utils.py line 84):
the element is placed before the first entry of strictly smaller length, so
equal-length entries keep their original relative order, matching the
stable sort of Python. -/
def insertByLen (x : String × IsoEntry) : List (String × IsoEntry) → List (String × IsoEntry)
  | [] => [x]
  | y :: ys => if y.1.length ≤ x.1.length then x :: y :: ys else y :: insertByLen x ys

/-- `CountryDetector._sorted_codes` (utils.py line 84): the table sorted by
descending code length (with the looked-up ISO entries carried along, which
models the later `COUNTRY_CODES[code]` lookup since keys are unique). -/
def sortedCountryCodes : List (String × IsoEntry) :=
  COUNTRY_CODES.foldr insertByLen []

/-- The flag-URL template of utils.py line 94. -/
def flagUrlFor (iso : String) : String :=
  "https://flagpedia.net/data/flags/w580/" ++ pyLower iso ++ ".png"

/-- `CountryDetector.detect_country` (utils.py lines 87-96): first code of
the length-sorted table that is a prefix of the input, resolved to its ISO
code and templated flag URL; `(None, None, None)` when no code matches. -/
def detectCountry (numberStr : String) :
    Option String × Option String × Option String :=
  match sortedCountryCodes.find? (fun p => pyStartsWith numberStr p.1) with
  | some p => (some p.1, some (isoOf p.2), some (flagUrlFor (isoOf p.2)))
  | Option.none => (Option.none, Option.none, Option.none)

/-- The `CLEAN_NUMBER` regex substitution (utils.py line 13): remove every whitespace,
dash and plus character. -/
def cleanNumber (s : String) : String :=
  String.mk (s.data.filter (fun c => !(c.isWhitespace || c == '-' || c == '+')))

/-!
## StrategyCache — `ParsingStrategyCache` (utils.py 112-152)
-/

/-- Pointwise update of a string-keyed map modelled as a total function. -/
def updateFn {α : Type} (f : String → α) (k : String) (v : α) : String → α :=
  fun d => if d = k then v else f d

/-- State of `ParsingStrategyCache` (utils.py lines 115-119).  The three
Python dicts are modelled as total functions; the `.get(domain, 0)` default
of `failure_count` is the value of the function itself. -/
structure ParsingStrategyCache where
  domainStrategies : String → Option String
  selectorCache : String → Option String
  failureCount : String → Nat

/-- The freshly constructed cache (`ParsingStrategyCache.__init__`). -/
def ParsingStrategyCache.empty : ParsingStrategyCache :=
  { domainStrategies := fun _ => Option.none
    selectorCache := fun _ => Option.none
    failureCount := fun _ => 0 }

/-- Model of Python `s.split(sep)` for a non-empty separator `s0 :: srest`,
over character lists (keeps empty pieces, like Python). `acc` holds the
reversed characters of the piece being read. -/
def splitOnList (s0 : Char) (srest : List Char) : List Char → List Char → List (List Char)
  | [], acc => [acc.reverse]
  | c :: rest, acc =>
    if (s0 :: srest).isPrefixOf (c :: rest) then
      acc.reverse :: splitOnList s0 srest (rest.drop srest.length) []
    else
      splitOnList s0 srest rest (c :: acc)
termination_by cs _ => cs.length
decreasing_by
  · simp only [List.length_drop, List.length_cons]
    omega
  · simp only [List.length_cons]
    omega

/-- Model of Python `s.replace(pat, "")` for a non-empty pattern
`p0 :: prest`: remove every (left-to-right, non-overlapping) occurrence. -/
def removeAllList (p0 : Char) (prest : List Char) : List Char → List Char
  | [] => []
  | c :: rest =>
    if (p0 :: prest).isPrefixOf (c :: rest) then
      removeAllList p0 prest (rest.drop prest.length)
    else
      c :: removeAllList p0 prest rest
termination_by cs => cs.length
decreasing_by
  · simp only [List.length_drop, List.length_cons]
    omega
  · simp only [List.length_cons]
    omega

/-- `ParsingStrategyCache.get_domain` (utils.py lines 121-123):
`url.split("//")[-1].split("/")[0].replace("www.", "")`. -/
def getDomain (url : String) : String :=
  let afterScheme := (splitOnList '/' ['/'] url.data []).getLastD []
  let host := (splitOnList '/' [] afterScheme []).headD []
  String.mk (removeAllList 'w' ['w', 'w', '.'] host)

/-- `ParsingStrategyCache.get_strategy` (utils.py lines 125-134): when the
domain has accumulated more than 3 failures, evict its entries, reset the
counter and return no strategy; otherwise return the cached strategy. -/
def getStrategy (c : ParsingStrategyCache) (url : String) :
    Option String × ParsingStrategyCache :=
  let domain := getDomain url
  if c.failureCount domain > 3 then
    (Option.none,
      { domainStrategies := updateFn c.domainStrategies domain Option.none
        selectorCache := updateFn c.selectorCache domain Option.none
        failureCount := updateFn c.failureCount domain 0 })
  else
    (c.domainStrategies domain, c)

/-- `ParsingStrategyCache.cache_strategy` (utils.py lines 136-142): record
the strategy, reset the failure counter, and record the selector when one
is given (the `if selector:` truthiness test skips `None` and `""`). -/
def cacheStrategy (c : ParsingStrategyCache) (url strategyType : String)
    (selector : Option String) : ParsingStrategyCache :=
  let domain := getDomain url
  { domainStrategies := updateFn c.domainStrategies domain (some strategyType)
    failureCount := updateFn c.failureCount domain 0
    selectorCache :=
      match selector with
      | some sel => if sel = "" then c.selectorCache else updateFn c.selectorCache domain (some sel)
      | Option.none => c.selectorCache }

/-- `ParsingStrategyCache.get_cached_selector` (utils.py lines 144-147). -/
def getCachedSelector (c : ParsingStrategyCache) (url : String) : Option String :=
  c.selectorCache (getDomain url)

/-- `ParsingStrategyCache.mark_failure` (utils.py lines 149-152). -/
def markFailure (c : ParsingStrategyCache) (url : String) : ParsingStrategyCache :=
  let domain := getDomain url
  { c with failureCount := updateFn c.failureCount domain (c.failureCount domain + 1) }

/-!
## Fetcher — `fetch_url_content` (utils.py 274-291)

Network behaviour is abstracted as a map from the attempt index to its
outcome.  The code catches exactly `aiohttp.ClientError` and
`asyncio.TimeoutError`, which is what `netError` models, so within this
model the function always returns normally.
-/

/-- `NetworkConfig.MAX_RETRIES` (utils.py line 108). -/
def MAX_RETRIES : Nat := 3

/-- Outcome of one HTTP GET attempt: a response body, or a network
error/timeout (the exceptions the retry loop catches). -/
inductive FetchOutcome where
  | success (text : String)
  | netError

/-- The `for attempt in range(MAX_RETRIES)` retry loop of utils.py lines
279-290, starting at attempt index `attempt` with `fuel` iterations left.
Returns the body together with the number of attempts performed; after the
loop the function falls through to `return ""` (line 291). -/
def fetchFrom (net : Nat → FetchOutcome) : Nat → Nat → String × Nat
  | 0, attempt => ("", attempt)
  | fuel + 1, attempt =>
    match net attempt with
    | .success t => (t, attempt + 1)
    | .netError => fetchFrom net fuel (attempt + 1)

/-- `fetch_url_content(url)` (utils.py lines 274-291): `None` for a falsy
URL, otherwise the result of the retry loop. The second component counts the GET
attempts actually made. -/
def fetchUrlContent (url : String) (net : Nat → FetchOutcome) : Option String × Nat :=
  if url = "" then (Option.none, 0)
  else
    let r := fetchFrom net MAX_RETRIES 0
    (some r.1, r.2)

/-!
## ContentParser — `parse_website_content` (utils.py 294-415)

The network-and-HTML environment of one parsing cycle is abstracted:
`pageContent` is `some f` when `fetch_url_content` returns truthy text, with
`f sel` the stripped texts of `soup.select(sel)`; the two API sub-strategies
are `Except`-valued lists (an `error` models an exception raised by the
client, caught by the surrounding `try`).
-/

/-- Abstracted environment of one `parse_website_content` call. -/
structure ParseEnv where
  pageContent : Option (String → List String)
  jsonNumbers : Except Unit (List String)
  apiNumbers : Except Unit (List String)

/-- The result-shaping expression `numbers[0] if len(numbers) == 1 else
numbers` appearing at every success return of `parse_website_content`
(utils.py lines 315, 326, 341, 371, 387, 407). -/
def shapeNumbers (numbers : List String) : Value :=
  if numbers.length = 1 then .str (numbers.headD "") else .list (numbers.map .str)

/-- Flag lookup performed at every success return: clean the first number
and take the flag component of `detect_country` (e.g. utils.py 313-314). -/
def flagFor (numbers : List String) : Option String :=
  (detectCountry (cleanNumber (numbers.headD ""))).2.2

/-- The fixed `selector_patterns` list of utils.py lines 353-358. -/
def selectorPatterns : List String :=
  [".latest-added__title a", ".numbutton", ".styles_number__jQoac", ".card-title"]

/-- Try the candidate selectors in order against the fetched page and return
the first selector yielding a non-empty element list (utils.py 360-362). -/
def findFirstSelector (f : String → List String) : List String → Option (String × List String)
  | [] => Option.none
  | sel :: rest =>
    match f sel with
    | [] => findFirstSelector f rest
    | x :: xs => some (sel, x :: xs)

/-- Phases 3-4 of `parse_website_content` (utils.py lines 345-415): the full
strategy cascade — HTML selectors, then the JSON API, then the keyed API —
caching the winning strategy, or marking a failure when every strategy
yields nothing. -/
def parseCascade (c : ParsingStrategyCache) (url : String) (env : ParseEnv) :
    (Value × Option String) × ParsingStrategyCache :=
  match env.pageContent, findFirstSelector (fun sel => (env.pageContent.getD (fun _ => [])) sel) selectorPatterns with
  | some _, some (sel, numbers) =>
    ((shapeNumbers numbers, flagFor numbers), cacheStrategy c url "html" (some sel))
  | _, _ =>
    match env.jsonNumbers with
    | .ok (x :: xs) =>
      ((shapeNumbers (x :: xs), flagFor (x :: xs)), cacheStrategy c url "json" Option.none)
    | _ =>
      match env.apiNumbers with
      | .ok (x :: xs) =>
        ((shapeNumbers (x :: xs), flagFor (x :: xs)), cacheStrategy c url "api_keys" Option.none)
      | _ => ((Value.null, Option.none), markFailure c url)

/-- Phase 2 of `parse_website_content` (utils.py lines 300-343): retry the
remembered strategy first; `none` means the cached attempt fell through to
the full cascade.  The cached `api_keys` branch re-caches itself on success
(line 340). -/
def tryCachedStrategy (cached : Option String) (c : ParsingStrategyCache) (url : String)
    (env : ParseEnv) : Option ((Value × Option String) × ParsingStrategyCache) :=
  if cached = some "html" then
    match getCachedSelector c url with
    | some sel =>
      if sel = "" then Option.none
      else
        match env.pageContent with
        | some f =>
          match f sel with
          | [] => Option.none
          | x :: xs => some ((shapeNumbers (x :: xs), flagFor (x :: xs)), c)
        | Option.none => Option.none
    | Option.none => Option.none
  else if cached = some "json" then
    match env.jsonNumbers with
    | .ok (x :: xs) => some ((shapeNumbers (x :: xs), flagFor (x :: xs)), c)
    | _ => Option.none
  else if cached = some "api_keys" then
    match env.apiNumbers with
    | .ok (x :: xs) =>
      some ((shapeNumbers (x :: xs), flagFor (x :: xs)), cacheStrategy c url "api_keys" Option.none)
    | _ => Option.none
  else Option.none

/-- `parse_website_content(url, website_type)` (utils.py lines 294-415).
The `website_type` parameter is accepted and — exactly as in the source —
never consulted: the same single-element results are returned as bare
strings for every declared type. -/
def parseWebsiteContent (c : ParsingStrategyCache) (url : String)
    (websiteType : Option String) (env : ParseEnv) :
    (Value × Option String) × ParsingStrategyCache :=
  let looked := getStrategy c url
  match tryCachedStrategy looked.1 looked.2 url env with
  | some res => res
  | Option.none => parseCascade looked.2 url env

/-!
## SourceMonitor — `WebsiteMonitor.process_update` (monitoring.py 32-123)
-/

/-- The observed-state fields of a `WebsiteMonitor` (monitoring.py lines
11-18).  `type` is `None` until configured or inferred; `last_number`,
`previous_last_number` and `latest_numbers` are dynamically typed Python
attributes, hence `Value`. -/
structure MonitorState where
  type : Option String
  isInitialRun : Bool
  latestNumbers : Value
  lastNumber : Value
  flagUrl : Option String
  previousLastNumber : Value
deriving DecidableEq

/-- The state of a freshly constructed monitor with the given configured
type (monitoring.py lines 8-18). -/
def MonitorState.initial (type : Option String) : MonitorState :=
  { type := type
    isInitialRun := true
    latestNumbers := .list []
    lastNumber := .null
    flagUrl := Option.none
    previousLastNumber := .null }

/-- Result of one `process_update` call: the notify decision, the monitor
state after the call, and whether `save_website_data` was invoked. -/
structure ProcessResult where
  notify : Bool
  state : MonitorState
  saved : Bool
deriving DecidableEq

/-- The dynamic type detection of monitoring.py lines 40-46: a list of more
than one element makes the source `multiple`, everything else `single`. -/
def detectType (st : MonitorState) (newData : Value) : MonitorState :=
  if st.type = Option.none then
    match newData with
    | .list l => if l.length > 1 then { st with type := some "multiple" } else { st with type := some "single" }
    | _ => { st with type := some "single" }
  else st

/-- `WebsiteMonitor.process_update(new_data, flag_url)` (monitoring.py lines
32-123).  `Except.error` models an exception escaping the call (only the
unguarded `new_data[0]` subscripts at lines 83 and 103 and the
`new_data.copy()` at line 91 can raise; no proved claim crosses those
paths). -/
def processUpdate (st : MonitorState) (newData : Value) (flagUrl : Option String) :
    Except Unit ProcessResult :=
  if !newData.truthy then .ok ⟨false, st, false⟩
  else
    let st := detectType st newData
    if st.type = some "single" then
      let newNumber := normalizeNumber newData
      if st.lastNumber = Value.null then
        .ok ⟨true, { st with
          lastNumber := newNumber
          previousLastNumber := newNumber
          flagUrl := flagUrl
          isInitialRun := true }, true⟩
      else if newNumber ≠ st.lastNumber then
        .ok ⟨true, { st with
          previousLastNumber := st.lastNumber
          lastNumber := newNumber
          flagUrl := flagUrl
          isInitialRun := false }, true⟩
      else .ok ⟨false, st, false⟩
    else
      if !st.latestNumbers.truthy then
        match pyGetItem0 newData with
        | .error _ => .error ()
        | .ok firstNum =>
          match pyInt (stripPlus firstNum) with
          | some n =>
            match pyCopy newData with
            | .error _ => .error ()
            | .ok l =>
              .ok ⟨true, { st with
                lastNumber := .int n
                previousLastNumber := .int n
                flagUrl := flagUrl
                latestNumbers := .list l
                isInitialRun := true }, true⟩
          | Option.none => .ok ⟨false, { st with lastNumber := Value.null }, false⟩
      else
        match pyGetItem0 newData with
        | .error _ => .error ()
        | .ok firstNum =>
          match pyInt (stripPlus firstNum) with
          | some n =>
            if Value.int n ≠ st.lastNumber then
              .ok ⟨true, { st with
                previousLastNumber := st.lastNumber
                lastNumber := .int n
                latestNumbers := newData
                flagUrl := flagUrl
                isInitialRun := false }, true⟩
            else .ok ⟨false, st, false⟩
          | Option.none => .ok ⟨false, st, false⟩

/-!
## The state mutation of `send_notification` (notifications.py 422-442)

In the subsequent-run branch for a multiple-numbers notification the sender
itself rewrites the monitor fields: it stores the current `last_number`
into `previous_last_number` and then re-derives `last_number` from the head
of the notified list (notifications.py lines 431-442).
-/

/-- The monitor-field mutation of notifications.py lines 431-442, applied
to the `numbers` taken from the notification data: when `numbers` is truthy
and non-empty, set `previous_last_number := last_number` and then
`last_number := int(head)` (falling back to the stripped head when `int()`
raises). -/
def sendNotificationUpdate (st : MonitorState) (numbers : Value) :
    Except Unit MonitorState :=
  if !numbers.truthy then .ok st
  else
    match pyLen numbers with
    | .error _ => .error ()
    | .ok n =>
      if n > 0 then
        let st := { st with previousLastNumber := st.lastNumber }
        match pyGetItem0 numbers with
        | .error _ => .error ()
        | .ok firstNum =>
          let firstNum := stripPlus firstNum
          match pyInt firstNum with
          | some m => .ok { st with lastNumber := .int m }
          | Option.none => .ok { st with lastNumber := firstNum }
      else .ok st

/-- Well-formedness of a monitor state, preserved by `process_update` and
holding for every freshly constructed monitor: a source that would take the
multiple-numbers branch and has no snapshot yet also has no recorded last
number.  (The multiple first-run branch re-initialises `last_number` from
scratch, so states violating this are exactly the unreachable ones.) -/
def MonitorState.wellFormed (st : MonitorState) : Prop :=
  st.type ≠ some "single" → st.latestNumbers.truthy = false → st.lastNumber = Value.null

/-!
## Concrete states reused by the example theorems below
-/

/-- A steady single-type monitor with recorded value 5. -/
def steadySingle5 : MonitorState :=
  { type := some "single"
    isInitialRun := false
    latestNumbers := .list []
    lastNumber := .int 5
    flagUrl := Option.none
    previousLastNumber := .int 5 }

/-- A steady multiple-type monitor holding 456 with prior value 123. -/
def steadyMulti456 : MonitorState :=
  { type := some "multiple"
    isInitialRun := false
    latestNumbers := .list [.str "456"]
    lastNumber := .int 456
    flagUrl := Option.none
    previousLastNumber := .int 123 }

/-!
# Helper lemmas
-/

/-- `pyIndex` returns `none` exactly on absent values. -/
theorem pyIndex_eq_none_of_not_mem {l : List Value} {x : Value} (h : x ∉ l) :
    pyIndex l x = Option.none := by
  induction l with
  | nil => rfl
  | cons y ys ih =>
    have hyx : ¬y = x := fun he => h (by simp [he])
    have hx : x ∉ ys := fun hm => h (List.mem_cons_of_mem _ hm)
    simp [pyIndex, hyx, ih hx]

/-- `pyIndex` finds the first index holding the value. -/
theorem pyIndex_eq_of_first {l : List Value} {x : Value} {k : Nat}
    (hk : l[k]? = some x) (hfirst : ∀ j, j < k → l[j]? ≠ some x) :
    pyIndex l x = some k := by
  induction l generalizing k with
  | nil => simp at hk
  | cons y ys ih =>
    cases k with
    | zero =>
      simp at hk
      simp [pyIndex, hk]
    | succ k =>
      have hy : ¬y = x := by
        have h0 := hfirst 0 (Nat.succ_pos k)
        simp at h0
        exact h0
      have hk' : ys[k]? = some x := by simpa using hk
      have hfirst' : ∀ j, j < k → ys[j]? ≠ some x := by
        intro j hj
        have := hfirst (j + 1) (Nat.succ_lt_succ hj)
        simpa using this
      simp [pyIndex, hy, ih hk' hfirst']

/-- `detectType` only ever touches the `type` field. -/
theorem detectType_lastNumber (st : MonitorState) (d : Value) :
    (detectType st d).lastNumber = st.lastNumber := by
  unfold detectType
  split
  · split
    · split <;> rfl
    · rfl
  · rfl

/-- `detectType` only ever touches the `type` field. -/
theorem detectType_previousLastNumber (st : MonitorState) (d : Value) :
    (detectType st d).previousLastNumber = st.previousLastNumber := by
  unfold detectType
  split
  · split
    · split <;> rfl
    · rfl
  · rfl

/-- `detectType` only ever touches the `type` field. -/
theorem detectType_latestNumbers (st : MonitorState) (d : Value) :
    (detectType st d).latestNumbers = st.latestNumbers := by
  unfold detectType
  split
  · split
    · split <;> rfl
    · rfl
  · rfl

/-- A monitor with a configured type is left alone by type detection. -/
theorem detectType_of_typed (st : MonitorState) (d : Value) (h : st.type ≠ Option.none) :
    detectType st d = st := by
  unfold detectType
  simp [h]

/-- If detection lands outside the single branch, the original type was not
`single` either. -/
theorem type_ne_single_of_detectType (st : MonitorState) (d : Value)
    (h : (detectType st d).type ≠ some "single") : st.type ≠ some "single" := by
  intro he
  exact h (by rw [detectType_of_typed st d (by rw [he]; exact fun hc => Option.noConfusion hc), he])

/-- Normalisation of a truthy value never yields `None`. -/
theorem normalizeNumber_ne_null {d : Value} (h : d.truthy = true) :
    normalizeNumber d ≠ Value.null := by
  unfold normalizeNumber
  cases hpi : pyInt (stripPlus d)
  · cases d with
    | null => simp [Value.truthy] at h
    | int n => simp [stripPlus]
    | list l => simp [stripPlus]
    | str s =>
      simp only [stripPlus]
      split <;> simp
  · simp

/-!
# C1 — the new-entry selector
-/

/-- C1 (counterexample): the claim says the selector returns the empty list
whenever the anchor sits at index 0 of the list, but the code first tests
Python truthiness of the anchor, so the falsy anchor `""` sitting at index 0
makes it return the full list instead of `[]`. -/
theorem get_selected_numbers_falsy_anchor_cex :
    ([Value.str ""] : List Value)[0]? = some (Value.str "") ∧
    getSelectedNumbersForButtons [Value.str ""] (Value.str "") = [Value.str ""] ∧
    getSelectedNumbersForButtons [Value.str ""] (Value.str "") ≠ [] := by
  refine ⟨rfl, rfl, ?_⟩
  decide

/-- C1 (amended): for a falsy anchor (`None`, `0`, `""`, `[]`) the selector
returns the input list (empty included); for a truthy anchor it returns the
whole list when the anchor is absent, and the prefix strictly before the
first occurrence of the anchor (empty at index 0) when present. -/
theorem get_selected_numbers_spec (numbers : List Value) (anchor : Value) :
    (anchor.truthy = false →
      getSelectedNumbersForButtons numbers anchor = if numbers.isEmpty then [] else numbers) ∧
    (anchor.truthy = true → anchor ∉ numbers →
      getSelectedNumbersForButtons numbers anchor = numbers) ∧
    (∀ k, anchor.truthy = true → numbers[k]? = some anchor →
      (∀ j, j < k → numbers[j]? ≠ some anchor) →
      getSelectedNumbersForButtons numbers anchor = numbers.take k) := by
  refine ⟨?_, ?_, ?_⟩
  · intro hf
    unfold getSelectedNumbersForButtons
    rcases he : numbers.isEmpty <;> simp [he, hf]
  · intro ht hmem
    have hn := pyIndex_eq_none_of_not_mem hmem
    unfold getSelectedNumbersForButtons
    rcases he : numbers.isEmpty
    · simp [he, ht, hn]
    · rw [List.isEmpty_iff] at he
      subst he
      simp
  · intro k ht hk hfirst
    have hp := pyIndex_eq_of_first hk hfirst
    have hne : numbers.isEmpty = false := by
      cases numbers with
      | nil => simp at hk
      | cons a l => rfl
    simp [getSelectedNumbersForButtons, hne, ht, hp]

/-- C1 (witness): a truthy anchor first occurring at index 2 selects exactly
the two entries before it. -/
theorem get_selected_numbers_spec_witness :
    getSelectedNumbersForButtons [Value.str "929", Value.str "785", Value.str "111"]
      (Value.str "111") = [Value.str "929", Value.str "785"] := by
  have h := (get_selected_numbers_spec
    [Value.str "929", Value.str "785", Value.str "111"] (Value.str "111")).2.2 2
    (by decide) (by decide) (by decide)
  simpa using h

/-!
# C5 — empty parse results are skipped
-/

/-- C5 (confirmed): an empty or `None` parse result makes `process_update`
return dont-notify without saving, leaving every monitor field (type,
initial-run flag, snapshot, last and previous number, flag URL) unchanged:
the guard at monitoring.py lines 34-37 fires before any mutation. -/
theorem process_update_empty_skips (st : MonitorState) (f : Option String) (d : Value)
    (hd : d = Value.null ∨ d = Value.str "" ∨ d = Value.list []) :
    processUpdate st d f = .ok ⟨false, st, false⟩ := by
  rcases hd with hd | hd | hd <;> subst hd <;> rfl

/-- C5 (witness): evaluation at a steady monitor and a `None` result. -/
theorem process_update_empty_skips_witness :
    processUpdate steadySingle5 Value.null Option.none = .ok ⟨false, steadySingle5, false⟩ :=
  process_update_empty_skips steadySingle5 Option.none Value.null (Or.inl rfl)

/-!
# C3 — first observation of a source
-/

/-- C3 (counterexample): the claim says any non-empty first parse result
initialises the monitor and notifies, but for a multiple-type source whose
head value does not convert with `int()` (monitoring.py lines 86-98) the
call returns dont-notify and persists nothing. -/
theorem process_update_uninitialized_nonnumeric_cex :
    processUpdate (MonitorState.initial (some "multiple"))
      (Value.list [Value.str "abc"]) Option.none =
      .ok ⟨false, MonitorState.initial (some "multiple"), false⟩ := by rfl

/-- C3 (amended): on the first observation, a single-type source accepts any
truthy parse value, setting `last_number = previous_last_number =` the
normalised head, marking the initial run and saving; a multiple-type source
does so (also snapshotting the full list) only when its head value parses as
an integer after stripping `+` — a non-numeric head instead resets
`last_number` to `None`, does not notify and does not save. -/
theorem process_update_uninitialized (st : MonitorState) (d : Value) (f : Option String) :
    (st.type = some "single" → st.lastNumber = Value.null → d.truthy = true →
      processUpdate st d f = .ok ⟨true, { st with
        lastNumber := normalizeNumber d
        previousLastNumber := normalizeNumber d
        flagUrl := f
        isInitialRun := true }, true⟩) ∧
    (st.type = some "multiple" → st.latestNumbers.truthy = false →
      (∀ x rest n, d = Value.list (x :: rest) → pyInt (stripPlus x) = some n →
        processUpdate st d f = .ok ⟨true, { st with
          lastNumber := Value.int n
          previousLastNumber := Value.int n
          flagUrl := f
          latestNumbers := d
          isInitialRun := true }, true⟩) ∧
      (∀ x rest, d = Value.list (x :: rest) → pyInt (stripPlus x) = Option.none →
        processUpdate st d f = .ok ⟨false, { st with lastNumber := Value.null }, false⟩)) := by
  refine ⟨?_, fun hty hlat => ⟨?_, ?_⟩⟩
  · intro hty hnull htr
    have hdt : detectType st d = st := detectType_of_typed st d (by rw [hty]; exact fun h => Option.noConfusion h)
    simp [processUpdate, htr, hdt, hty, hnull]
  · intro x rest n hd hint
    subst hd
    have hdt : detectType st (Value.list (x :: rest)) = st :=
      detectType_of_typed st _ (by rw [hty]; exact fun h => Option.noConfusion h)
    have htr : (Value.list (x :: rest)).truthy = true := rfl
    simp [processUpdate, htr, hdt, hty, hlat, pyGetItem0, hint, pyCopy]
  · intro x rest hd hint
    subst hd
    have hdt : detectType st (Value.list (x :: rest)) = st :=
      detectType_of_typed st _ (by rw [hty]; exact fun h => Option.noConfusion h)
    have htr : (Value.list (x :: rest)).truthy = true := rfl
    simp [processUpdate, htr, hdt, hty, hlat, pyGetItem0, hint]

/-- C3 (witness): spec scenario A — the first parse of a single-type source
returning `"123"` initialises both fields to 123 and notifies with the
initial-run flag set. -/
theorem process_update_uninitialized_witness :
    processUpdate (MonitorState.initial (some "single")) (Value.str "123") Option.none =
      .ok ⟨true, { MonitorState.initial (some "single") with
        lastNumber := normalizeNumber (Value.str "123")
        previousLastNumber := normalizeNumber (Value.str "123")
        flagUrl := Option.none
        isInitialRun := true }, true⟩ :=
  (process_update_uninitialized (MonitorState.initial (some "single"))
    (Value.str "123") Option.none).1 rfl rfl rfl

/-!
# C4 — change detection on an initialised source
-/

/-- C4 (counterexample): the claim says a head value differing from
`last_number` always triggers the store-and-notify transition, but on a
multiple-type source a non-numeric head (here `"abc"`, differing from the
stored 456) makes `int()` fail, so monitoring.py lines 120-121 silently
`pass` and the call returns dont-notify with no state change. -/
theorem process_update_changed_nonnumeric_cex :
    processUpdate
      { type := some "multiple"
        isInitialRun := false
        latestNumbers := .list [.str "456"]
        lastNumber := .int 456
        flagUrl := Option.none
        previousLastNumber := .int 456 }
      (Value.list [Value.str "abc"]) Option.none =
      .ok ⟨false,
        { type := some "multiple"
          isInitialRun := false
          latestNumbers := .list [.str "456"]
          lastNumber := .int 456
          flagUrl := Option.none
          previousLastNumber := .int 456 }, false⟩ := by rfl

/-- C4 (amended): on an initialised source, a changed head triggers
`previous_last_number := last_number`, `last_number := new head`, a snapshot
replacement (multiple), `is_initial_run := false`, a save and a notify —
for a single-type source whenever the normalised head differs, and for a
multiple-type source only when the head also parses as an integer; a
non-numeric head on a multiple-type source changes nothing and does not
notify. -/
theorem process_update_changed (st : MonitorState) (d : Value) (f : Option String) :
    (st.type = some "single" → st.lastNumber ≠ Value.null → d.truthy = true →
      normalizeNumber d ≠ st.lastNumber →
      processUpdate st d f = .ok ⟨true, { st with
        previousLastNumber := st.lastNumber
        lastNumber := normalizeNumber d
        flagUrl := f
        isInitialRun := false }, true⟩) ∧
    (st.type = some "multiple" → st.latestNumbers.truthy = true →
      (∀ x rest n, d = Value.list (x :: rest) → pyInt (stripPlus x) = some n →
        Value.int n ≠ st.lastNumber →
        processUpdate st d f = .ok ⟨true, { st with
          previousLastNumber := st.lastNumber
          lastNumber := Value.int n
          latestNumbers := d
          flagUrl := f
          isInitialRun := false }, true⟩) ∧
      (∀ x rest, d = Value.list (x :: rest) → pyInt (stripPlus x) = Option.none →
        processUpdate st d f = .ok ⟨false, st, false⟩)) := by
  refine ⟨?_, fun hty hlat => ⟨?_, ?_⟩⟩
  · intro hty hnull htr hne
    have hdt : detectType st d = st :=
      detectType_of_typed st d (by rw [hty]; exact fun h => Option.noConfusion h)
    simp [processUpdate, htr, hdt, hty, hnull, hne]
  · intro x rest n hd hint hne
    subst hd
    have hdt : detectType st (Value.list (x :: rest)) = st :=
      detectType_of_typed st _ (by rw [hty]; exact fun h => Option.noConfusion h)
    have htr : (Value.list (x :: rest)).truthy = true := rfl
    simp [processUpdate, htr, hdt, hty, hlat, pyGetItem0, hint, hne]
  · intro x rest hd hint
    subst hd
    have hdt : detectType st (Value.list (x :: rest)) = st :=
      detectType_of_typed st _ (by rw [hty]; exact fun h => Option.noConfusion h)
    have htr : (Value.list (x :: rest)).truthy = true := rfl
    simp [processUpdate, htr, hdt, hty, hlat, pyGetItem0, hint]

/-- C4 (witness): spec scenario B — a steady single-type source holding 123
polls `"456"`: previous becomes 123, last becomes 456, notify fires with the
initial-run flag cleared. -/
theorem process_update_changed_witness :
    processUpdate
      { type := some "single"
        isInitialRun := false
        latestNumbers := .list []
        lastNumber := .int 123
        flagUrl := Option.none
        previousLastNumber := .int 123 }
      (Value.str "456") Option.none =
      .ok ⟨true,
        { type := some "single"
          isInitialRun := false
          latestNumbers := .list []
          lastNumber := normalizeNumber (Value.str "456")
          flagUrl := Option.none
          previousLastNumber := .int 123 }, true⟩ :=
  (process_update_changed
    { type := some "single"
      isInitialRun := false
      latestNumbers := .list []
      lastNumber := .int 123
      flagUrl := Option.none
      previousLastNumber := .int 123 }
    (Value.str "456") Option.none).1 rfl (by decide) rfl (by decide)

/-!
# C10 — head-value normalisation
-/

/-- Stripping a string that does start with `+` drops exactly that sign. -/
theorem stripPlus_plus_append (s : String) :
    stripPlus (Value.str ("+" ++ s)) = Value.str s := by
  simp only [stripPlus]
  rw [show ("+" ++ s).data = '+' :: s.data from by rw [String.data_append]; rfl]
  cases s
  rfl

/-- Stripping a string that does not start with `+` is the identity. -/
theorem stripPlus_no_plus (s : String) (h : s.data.headD ' ' ≠ '+') :
    stripPlus (Value.str s) = Value.str s := by
  simp only [stripPlus]
  split
  · rename_i rest hrest
    rw [hrest] at h
    exact absurd rfl h
  · rfl

/-- C10 (confirmed): `process_update` strips one leading `+` and converts
the head to an integer before comparing, so on an initialised monitor a
head differing from the stored `last_number` only by a leading `+` or by
str-versus-int representation is a no-op: dont-notify, no state change, no
save — in the single branch (monitoring.py 48-58) and the multiple branch
(lines 102-109) alike. -/
theorem process_update_plus_and_int_insensitive (st : MonitorState) (s : String) (n : Int)
    (f : Option String)
    (hplus : s.data.headD ' ' ≠ '+')
    (hs : pyIntOfString s = some n)
    (hlast : st.lastNumber = Value.int n) :
    (st.type = some "single" →
      processUpdate st (Value.str s) f = .ok ⟨false, st, false⟩ ∧
      processUpdate st (Value.str ("+" ++ s)) f = .ok ⟨false, st, false⟩) ∧
    (st.type = some "multiple" → st.latestNumbers.truthy = true → ∀ rest,
      processUpdate st (Value.list (Value.str s :: rest)) f = .ok ⟨false, st, false⟩ ∧
      processUpdate st (Value.list (Value.str ("+" ++ s) :: rest)) f =
        .ok ⟨false, st, false⟩) := by
  have hsne : s ≠ "" := by
    intro he
    subst he
    exact Option.noConfusion hs
  have hpne : ("+" ++ s : String) ≠ "" := by
    intro he
    have hd := congrArg String.data he
    rw [String.data_append] at hd
    exact List.noConfusion hd
  have hint1 : pyInt (stripPlus (Value.str s)) = some n := by
    rw [stripPlus_no_plus s hplus]
    simpa [pyInt] using hs
  have hint2 : pyInt (stripPlus (Value.str ("+" ++ s))) = some n := by
    rw [stripPlus_plus_append]
    simpa [pyInt] using hs
  have hnorm1 : normalizeNumber (Value.str s) = Value.int n := by
    unfold normalizeNumber
    rw [hint1, stripPlus_no_plus s hplus]
  have hnorm2 : normalizeNumber (Value.str ("+" ++ s)) = Value.int n := by
    unfold normalizeNumber
    rw [hint2, stripPlus_plus_append]
  constructor
  · intro hty
    have hne : st.type ≠ Option.none := by rw [hty]; exact fun h => Option.noConfusion h
    have htr1 : (Value.str s).truthy = true := by
      simp [Value.truthy, hsne]
    have htr2 : (Value.str ("+" ++ s)).truthy = true := by
      simp [Value.truthy, hpne]
    constructor
    · simp [processUpdate, htr1, detectType_of_typed st _ hne, hty, hlast, hnorm1]
    · simp [processUpdate, htr2, detectType_of_typed st _ hne, hty, hlast, hnorm2]
  · intro hty hlat rest
    have hne : st.type ≠ Option.none := by rw [hty]; exact fun h => Option.noConfusion h
    constructor
    · have htr : (Value.list (Value.str s :: rest)).truthy = true := rfl
      simp [processUpdate, htr, detectType_of_typed st _ hne, hty, hlat, pyGetItem0,
        hint1, hlast]
    · have htr : (Value.list (Value.str ("+" ++ s) :: rest)).truthy = true := rfl
      simp [processUpdate, htr, detectType_of_typed st _ hne, hty, hlat, pyGetItem0,
        hint2, hlast]

/-- C10 (witness): a steady single-type monitor holding 5 ignores both the
parse `"5"` and the parse `"+5"`. -/
theorem process_update_plus_and_int_insensitive_witness :
    processUpdate steadySingle5 (Value.str "5") Option.none =
      .ok ⟨false, steadySingle5, false⟩ ∧
    processUpdate steadySingle5 (Value.str ("+" ++ "5")) Option.none =
      .ok ⟨false, steadySingle5, false⟩ :=
  (process_update_plus_and_int_insensitive steadySingle5 "5" 5 Option.none
    (by decide) (by decide) rfl).1 rfl

/-!
# C2 — coupling of `previous_last_number` and `last_number`
-/

/-- C2 (counterexample): the claim says `previous_last_number` changes only
in a call that also changes `last_number`, but the subsequent-run update
inside `send_notification` (notifications.py lines 431-442) overwrites
`previous_last_number` (123 becomes 456) while re-assigning `last_number`
the value it already holds (456). -/
theorem send_notification_prev_without_last_cex :
    sendNotificationUpdate steadyMulti456 (Value.list [Value.str "456"]) =
      .ok { steadyMulti456 with previousLastNumber := Value.int 456 } ∧
    steadyMulti456.previousLastNumber ≠ Value.int 456 ∧
    steadyMulti456.lastNumber = Value.int 456 := by
  refine ⟨by rfl, by decide, rfl⟩

/-- C2 (amended): the invariant does hold for `process_update` on any
well-formed monitor state: whenever `previous_last_number` differs after the
call, `last_number` differs too, and any dont-notify return (in particular
a poll whose normalised head equals `last_number`) leaves both fields
untouched and saves nothing.  `send_notification`, by contrast, may
overwrite `previous_last_number` without changing `last_number`. -/
theorem process_update_prev_last_coupled (st : MonitorState) (d : Value) (f : Option String)
    (r : ProcessResult) (hwf : st.wellFormed) (h : processUpdate st d f = .ok r) :
    (r.state.previousLastNumber ≠ st.previousLastNumber → r.state.lastNumber ≠ st.lastNumber) ∧
    (r.notify = false → r.state.lastNumber = st.lastNumber ∧
      r.state.previousLastNumber = st.previousLastNumber ∧ r.saved = false) := by
  have hl := detectType_lastNumber st d
  have hp := detectType_previousLastNumber st d
  have hn := detectType_latestNumbers st d
  simp only [processUpdate] at h
  split at h
  · -- falsy data: nothing happens
    rename_i hfalsy
    have hr := Except.ok.inj h
    subst hr
    exact ⟨fun habs => absurd rfl habs, fun _ => ⟨rfl, rfl, rfl⟩⟩
  · rename_i htruthy
    have htr : d.truthy = true := by
      rcases hb : d.truthy
      · exact absurd (by rw [hb]; rfl) htruthy
      · rfl
    split at h
    · -- single branch
      rename_i hty
      split at h
      · -- first run
        rename_i hnull
        have hr := Except.ok.inj h
        subst hr
        refine ⟨fun _ => ?_, fun hfalse => Bool.noConfusion hfalse⟩
        dsimp only
        rw [← hl, hnull]
        exact normalizeNumber_ne_null htr
      · rename_i hnonnull
        split at h
        · -- changed
          rename_i hne
          have hr := Except.ok.inj h
          subst hr
          refine ⟨fun _ => ?_, fun hfalse => Bool.noConfusion hfalse⟩
          dsimp only
          rw [← hl]
          exact hne
        · -- no-op
          have hr := Except.ok.inj h
          subst hr
          exact ⟨fun habs => absurd hp (by dsimp only at habs; exact habs),
            fun _ => ⟨hl, hp, rfl⟩⟩
    · -- multiple branch
      rename_i htysingle
      have hwfm : st.latestNumbers.truthy = false → st.lastNumber = Value.null :=
        hwf (type_ne_single_of_detectType st d htysingle)
      split at h
      · -- first run (empty snapshot)
        rename_i hlat
        have hlat' : st.latestNumbers.truthy = false := by
          rw [← hn]
          rcases hb : (detectType st d).latestNumbers.truthy
          · rfl
          · rw [hb] at hlat
            exact Bool.noConfusion hlat
        have hlast0 : st.lastNumber = Value.null := hwfm hlat'
        split at h
        · exact Except.noConfusion h
        · rename_i firstNum hitem
          split at h
          · rename_i n hint
            split at h
            · exact Except.noConfusion h
            · rename_i l hcopy
              have hr := Except.ok.inj h
              subst hr
              refine ⟨fun _ => ?_, fun hfalse => Bool.noConfusion hfalse⟩
              dsimp only
              rw [hlast0]
              exact fun hc => Value.noConfusion hc
          · -- non-numeric head: last_number reset to the null it already was
            have hr := Except.ok.inj h
            subst hr
            refine ⟨fun habs => absurd hp (by dsimp only at habs; exact habs),
              fun _ => ⟨?_, hp, rfl⟩⟩
            dsimp only
            rw [hlast0]
      · -- subsequent runs
        rename_i hlat
        split at h
        · exact Except.noConfusion h
        · rename_i firstNum hitem
          split at h
          · rename_i n hint
            split at h
            · -- changed
              rename_i hne
              have hr := Except.ok.inj h
              subst hr
              refine ⟨fun _ => ?_, fun hfalse => Bool.noConfusion hfalse⟩
              dsimp only
              rw [← hl]
              exact hne
            · -- equal head: no-op
              have hr := Except.ok.inj h
              subst hr
              exact ⟨fun habs => absurd hp (by dsimp only at habs; exact habs),
                fun _ => ⟨hl, hp, rfl⟩⟩
          · -- non-numeric head: no-op
            have hr := Except.ok.inj h
            subst hr
            exact ⟨fun habs => absurd hp (by dsimp only at habs; exact habs),
              fun _ => ⟨hl, hp, rfl⟩⟩

/-- C2 (witness): the no-op poll of a steady single-type monitor (head `"5"`
equal to the stored 5) leaves `last_number` and `previous_last_number`
untouched and saves nothing. -/
theorem process_update_prev_last_coupled_witness :
    (ProcessResult.mk false steadySingle5 false).state.lastNumber = steadySingle5.lastNumber ∧
    (ProcessResult.mk false steadySingle5 false).state.previousLastNumber =
      steadySingle5.previousLastNumber ∧
    (ProcessResult.mk false steadySingle5 false).saved = false :=
  (process_update_prev_last_coupled steadySingle5 (Value.str "5") Option.none
    ⟨false, steadySingle5, false⟩
    (fun habs _ => absurd rfl habs) (by rfl)).2 rfl

/-!
# C6 — strategy-cache invalidation threshold
-/

/-- C6 (counterexample): the claim says 3 consecutive failures evict the
cached strategy, but the eviction test is `failure_count > 3` (utils.py line
129), so after exactly 3 `mark_failure` calls the next `get_strategy` still
returns the cached `"html"` strategy. -/
theorem strategy_cache_three_failures_cex :
    (getStrategy (markFailure (markFailure (markFailure
      (cacheStrategy ParsingStrategyCache.empty "https://example.com/x" "html"
        (some ".numbutton"))
      "https://example.com/x") "https://example.com/x") "https://example.com/x")
      "https://example.com/x").1 = some "html" ∧
    some "html" ≠ (Option.none : Option String) := by
  constructor
  · simp [getStrategy, markFailure, cacheStrategy, updateFn, ParsingStrategyCache.empty]
  · simp

/-- C6 (amended): it takes 4 consecutive `mark_failure` calls (a count
exceeding the threshold 3) before the next `get_strategy` call returns no
strategy; that lookup then also evicts the cached entries of the domain and resets its
failure counter. -/
theorem strategy_cache_evicts_after_four_failures (c : ParsingStrategyCache) (url : String) :
    (getStrategy (markFailure (markFailure (markFailure (markFailure c url) url) url) url)
      url).1 = Option.none ∧
    (getStrategy (markFailure (markFailure (markFailure (markFailure c url) url) url) url)
      url).2.domainStrategies (getDomain url) = Option.none ∧
    (getStrategy (markFailure (markFailure (markFailure (markFailure c url) url) url) url)
      url).2.failureCount (getDomain url) = 0 := by
  have hcount : (markFailure (markFailure (markFailure (markFailure c url) url) url)
      url).failureCount (getDomain url) = c.failureCount (getDomain url) + 1 + 1 + 1 + 1 := by
    simp [markFailure, updateFn]
  have hgt : (markFailure (markFailure (markFailure (markFailure c url) url) url)
      url).failureCount (getDomain url) > 3 := by
    rw [hcount]
    omega
  refine ⟨?_, ?_, ?_⟩ <;> simp [getStrategy, hgt, updateFn]

/-!
# C7 — the fetch retry loop
-/

/-- When every attempt in the window fails with a caught network error, the
retry loop consumes the whole window and falls through to `""`. -/
theorem fetchFrom_all_netError (net : Nat → FetchOutcome) :
    ∀ fuel attempt, (∀ i, attempt ≤ i → i < attempt + fuel → net i = .netError) →
      fetchFrom net fuel attempt = ("", attempt + fuel) := by
  intro fuel
  induction fuel with
  | zero => intro attempt _; rfl
  | succ fuel ih =>
    intro attempt hfail
    have h0 : net attempt = .netError :=
      hfail attempt (Nat.le_refl _) (by omega)
    have hrec := ih (attempt + 1) (fun i h1 h2 => hfail i (by omega) (by omega))
    simp only [fetchFrom, h0, hrec]
    have : attempt + 1 + fuel = attempt + (fuel + 1) := by omega
    rw [this]

/-- C7 (confirmed): on a non-empty URL whose every attempt fails with a
network error or timeout (the exceptions utils.py lines 285-290 catch),
`fetch_url_content` returns the empty string after exactly
`MAX_RETRIES = 3` GET attempts; there is no exception path out of the
loop for these failures. -/
theorem fetch_url_content_all_failures (url : String) (net : Nat → FetchOutcome)
    (hurl : url ≠ "")
    (hfail : ∀ i, i < MAX_RETRIES → net i = FetchOutcome.netError) :
    fetchUrlContent url net = (some "", 3) := by
  have h := fetchFrom_all_netError net MAX_RETRIES 0
    (fun i _ h2 => hfail i (by simpa using h2))
  norm_num at h
  simp [fetchUrlContent, hurl, MAX_RETRIES] at h ⊢
  simp [h]

/-- C7 (witness): a URL that always times out yields `("", 3 attempts)`. -/
theorem fetch_url_content_all_failures_witness :
    fetchUrlContent "https://example.com" (fun _ => FetchOutcome.netError) = (some "", 3) :=
  fetch_url_content_all_failures "https://example.com" (fun _ => FetchOutcome.netError)
    (by decide) (fun _ _ => rfl)

/-!
# C8 — single-element results keep their scalar shape
-/

/-- C8 (counterexample): the claim says a one-element result for a source of
Multiple kind is still returned as a list, but every return site of
`parse_website_content` applies `numbers[0] if len(numbers) == 1 else
numbers`, so even with `website_type = "multiple"` the parse returns the
bare string. -/
theorem parse_single_result_scalar_cex :
    (parseWebsiteContent ParsingStrategyCache.empty "https://example.com/x" (some "multiple")
      { pageContent := some (fun _ => ["123"])
        jsonNumbers := .error ()
        apiNumbers := .error () }).1.1 = Value.str "123" ∧
    Value.str "123" ≠ Value.list [Value.str "123"] := by
  refine ⟨by rfl, by decide⟩

/-- C8 (amended): with no cached strategy for the domain, a winning HTML
strategy yielding exactly one value makes `parse_website_content` return
that value as a bare string — for every declared `website_type`, Multiple
included — and a list is returned only for two or more values. -/
theorem parse_single_result_scalar (c : ParsingStrategyCache) (url : String)
    (t : Option String) (v w : String) (ws : List String)
    (hc : (getStrategy c url).1 = Option.none) :
    (parseWebsiteContent c url t
      { pageContent := some (fun _ => [v])
        jsonNumbers := .error ()
        apiNumbers := .error () }).1.1 = Value.str v ∧
    (parseWebsiteContent c url t
      { pageContent := some (fun _ => v :: w :: ws)
        jsonNumbers := .error ()
        apiNumbers := .error () }).1.1 = Value.list ((v :: w :: ws).map Value.str) := by
  constructor
  · simp [parseWebsiteContent, tryCachedStrategy, hc, parseCascade, findFirstSelector,
      selectorPatterns, shapeNumbers]
  · simp [parseWebsiteContent, tryCachedStrategy, hc, parseCascade, findFirstSelector,
      selectorPatterns, shapeNumbers]

/-- C8 (witness): evaluation of the amended statement at an empty cache,
a declared Multiple type, and the values "123", "456". -/
theorem parse_single_result_scalar_witness :
    (parseWebsiteContent ParsingStrategyCache.empty "https://example.org/y" (some "multiple")
      { pageContent := some (fun _ => ["123"])
        jsonNumbers := .error ()
        apiNumbers := .error () }).1.1 = Value.str "123" ∧
    (parseWebsiteContent ParsingStrategyCache.empty "https://example.org/y" (some "multiple")
      { pageContent := some (fun _ => ["123", "456"])
        jsonNumbers := .error ()
        apiNumbers := .error () }).1.1 =
      Value.list (["123", "456"].map Value.str) :=
  parse_single_result_scalar ParsingStrategyCache.empty "https://example.org/y"
    (some "multiple") "123" "456" [] (by rfl)

/-!
# C9 — longest-prefix country detection
-/

/-- Membership is preserved by the insertion step. -/
theorem mem_insertByLen {a x : String × IsoEntry} {l : List (String × IsoEntry)} :
    a ∈ insertByLen x l ↔ a = x ∨ a ∈ l := by
  induction l with
  | nil => simp [insertByLen]
  | cons y ys ih =>
    simp only [insertByLen]
    split
    · simp
    · simp [ih]
      tauto

/-- The insertion step preserves the descending-length pairwise order. -/
theorem pairwise_insertByLen {x : String × IsoEntry} {l : List (String × IsoEntry)}
    (hl : l.Pairwise (fun p q => q.1.length ≤ p.1.length)) :
    (insertByLen x l).Pairwise (fun p q => q.1.length ≤ p.1.length) := by
  induction l with
  | nil => simp [insertByLen]
  | cons y ys ih =>
    rcases List.pairwise_cons.mp hl with ⟨hy, hys⟩
    simp only [insertByLen]
    split
    · rename_i hle
      refine List.pairwise_cons.mpr ⟨?_, hl⟩
      intro z hz
      rcases List.mem_cons.mp hz with hz | hz
      · subst hz
        exact hle
      · exact Nat.le_trans (hy z hz) hle
    · rename_i hgt
      refine List.pairwise_cons.mpr ⟨?_, ih hys⟩
      intro z hz
      rcases mem_insertByLen.mp hz with hz | hz
      · subst hz
        omega
      · exact hy z hz

/-- The sorted code table holds exactly the entries of `COUNTRY_CODES`. -/
theorem mem_sortedCountryCodes {a : String × IsoEntry} :
    a ∈ sortedCountryCodes ↔ a ∈ COUNTRY_CODES := by
  unfold sortedCountryCodes
  generalize COUNTRY_CODES = l
  induction l with
  | nil => simp
  | cons y ys ih => simp [mem_insertByLen, ih]

/-- The sorted code table is pairwise descending in code length. -/
theorem pairwise_sortedCountryCodes :
    sortedCountryCodes.Pairwise (fun p q => q.1.length ≤ p.1.length) := by
  unfold sortedCountryCodes
  generalize COUNTRY_CODES = l
  induction l with
  | nil => simp
  | cons y ys ih => exact pairwise_insertByLen ih

/-- In a list pairwise descending by length, `find?` returns an element of
maximal length among those satisfying the predicate. -/
theorem find_longest {l : List (String × IsoEntry)} {p : (String × IsoEntry) → Bool}
    {x : String × IsoEntry}
    (hs : l.Pairwise (fun a b => b.1.length ≤ a.1.length))
    (hx : l.find? p = some x) :
    ∀ y ∈ l, p y = true → y.1.length ≤ x.1.length := by
  induction l with
  | nil => simp at hx
  | cons a t ih =>
    rcases List.pairwise_cons.mp hs with ⟨ha, hat⟩
    by_cases hpa : p a = true
    · rw [List.find?_cons_of_pos _ hpa] at hx
      have hxa : a = x := Option.some.inj hx
      subst hxa
      intro y hy _
      rcases List.mem_cons.mp hy with hy | hy
      · subst hy
        exact Nat.le_refl _
      · exact ha y hy
    · rw [List.find?_cons_of_neg _ (by simpa using hpa)] at hx
      intro y hy hpy
      rcases List.mem_cons.mp hy with hy | hy
      · subst hy
        exact absurd hpy hpa
      · exact ih hat hx y hy hpy

/-- C9 (confirmed): when `detect_country` returns a match, the returned code
comes from the static table with its resolved ISO code, is a prefix of the
input, is of maximal length among all table codes that are prefixes (so
`"1787"` beats `"1"`), and the flag URL is the deterministic template over
the ISO code; when no table code is a prefix, it returns `(None, None,
None)`. -/
theorem detect_country_longest_match (s : String) :
    (∀ code iso flag,
      detectCountry s = (some code, some iso, some flag) →
      (∃ e, (code, e) ∈ COUNTRY_CODES ∧ iso = isoOf e) ∧
      pyStartsWith s code = true ∧
      (∀ p ∈ COUNTRY_CODES, pyStartsWith s p.1 = true → p.1.length ≤ code.length) ∧
      flag = flagUrlFor iso) ∧
    ((∀ p ∈ COUNTRY_CODES, pyStartsWith s p.1 = false) →
      detectCountry s = (Option.none, Option.none, Option.none)) := by
  constructor
  · intro code iso flag heq
    unfold detectCountry at heq
    cases hfind : sortedCountryCodes.find? (fun p => pyStartsWith s p.1) with
    | none =>
      rw [hfind] at heq
      exact absurd heq (by simp)
    | some q =>
      rw [hfind] at heq
      simp only [Prod.mk.injEq, Option.some.injEq] at heq
      obtain ⟨hc, hi, hf⟩ := heq
      subst hc
      refine ⟨⟨q.2, ?_, hi.symm⟩, ?_, ?_, ?_⟩
      · have hmem := List.mem_of_find?_eq_some hfind
        simpa using mem_sortedCountryCodes.mp hmem
      · have := List.find?_some hfind
        simpa using this
      · intro p hp hps
        exact find_longest pairwise_sortedCountryCodes hfind p
          (mem_sortedCountryCodes.mpr hp) hps
      · rw [← hf, hi]
  · intro hall
    unfold detectCountry
    cases hfind : sortedCountryCodes.find? (fun p => pyStartsWith s p.1) with
    | none => rfl
    | some q =>
      exfalso
      have hq := List.find?_some hfind
      have hmem := mem_sortedCountryCodes.mp (List.mem_of_find?_eq_some hfind)
      have := hall q hmem
      rw [this] at hq
      exact Bool.noConfusion hq

/-- C9 (witness): on `"17871234"` the detector resolves the 4-digit code
`"1787"` (Puerto Rico) rather than the clashing 1-digit `"1"`, and `"1787"`
has maximal length among matching table codes. -/
theorem detect_country_longest_match_witness :
    pyStartsWith "17871234" "1787" = true ∧
    (∀ p ∈ COUNTRY_CODES, pyStartsWith "17871234" p.1 = true →
      p.1.length ≤ "1787".length) :=
  have h := (detect_country_longest_match "17871234").1 "1787" "pr" (flagUrlFor "pr") (by rfl)
  ⟨h.2.1, h.2.2.1⟩

end NotiBot
